import Mathlib

/-!
Verification development for the js.net resource-fetch layer.

The definitions below are a shallow embedding of the resumable chunked-download
engine `FileLoader` (src/js/net/loader/FileLoader.js) and of the non-chunked
whole-resource loader `URLLoader`.  Each JS handler becomes a pure function on
an explicit state record, returning the updated state together with the list of
notifications it emits.  Byte buffers (`ArrayBuffer` / `Int8Array`) are lists of
naturals; JS `null` is `Option.none`.
-/

namespace JsNet

/-- Notification levels from EventLevel.js. -/
inductive Level where
  | status
  | warning
  | error
  | command
deriving DecidableEq

/-- Notifications emitted through the `EventEmitter`, as the loaders build them.
The human-readable `message` strings and the floating-point `progress` fraction
are omitted; the claim-relevant payload fields (code, level, desc, loaded,
total, data) are kept. -/
inductive Emitted where
  | start
  | closeEvt (loaded : Nat) (total : Option Nat)
  | errorEvt (code : Nat) (level : Level) (desc : String)
  | progressEvt (loaded : Nat) (total : Option Nat)
  | completeEvt (payload : List Nat)
  | netState (code : String) (level : Level) (desc : String)
deriving DecidableEq

/-- The mutable fields of a `FileLoader` instance.

`state`/`loaded`/`total`/`data`/`dataFormat`/`timeout` mirror `_state`,
`_loaded`, `_total`, `_data`, `_dataFormat`, `_timeout`.  `_total` holds the
raw `getResponseHeader` result, which is `null` when the header is absent, so
it is an `Option Nat` (`reset` stores the number 0, i.e. `some 0`).  `xhr` is
the presence of the header-discovery `XMLHttpRequest` (`_xhr !== null`) and
`xhrInFlight` whether a request on it is active (so that `abort()` fires its
`abort` event).  `loaderPresent`/`loaderPending` play the same role for the
chunk `XMLHttpRequest` `_loader`; a pending chunk request carries the byte
interval of its `Range` header.  `requests` is a ghost log of every `Range`
header issued by `slice`, used only to state theorems. -/
structure St where
  state : Nat
  loaded : Nat
  total : Option Nat
  data : Option (List Nat)
  dataFormat : String
  timeout : Nat
  xhr : Bool
  xhrInFlight : Bool
  loaderPresent : Bool
  loaderPending : Option (Nat × Nat)
  activeDisconnect : Bool
  request : Bool
  requests : List (Nat × Nat)
deriving DecidableEq

/-- The JS comparison `loaded < total` where `_total` may be `null`
(`null` coerces to 0, and a numeric string coerces to its number). -/
def ltTot (l : Nat) : Option Nat → Bool
  | none => false
  | some t => decide (l < t)

/-- `Int8Array.set src off` into buffer `t` (the semantics of the in-bounds
case; out-of-bounds writes throw in JS and are never reached in the runs
below). -/
def writeAt (t : List Nat) (off : Nat) (src : List Nat) : List Nat :=
  t.take off ++ src ++ t.drop (off + src.length)

/-- `[reset]`: zero every field and drop both XMLHttpRequest objects.
(`_active_disconnect` is not touched by the source `reset`.) -/
def resetFn (s : St) : St :=
  { s with
    state := 0,
    loaded := 0,
    total := some 0,
    data := none,
    dataFormat := "binary",
    timeout := 0,
    xhr := false,
    xhrInFlight := false,
    loaderPresent := false,
    loaderPending := none }

/-- The state of a fresh `new FileLoader(request)`: `[reset]` followed by the
creation of the discovery `XMLHttpRequest` (constructed with a request). -/
def initSt : St :=
  { state := 0,
    loaded := 0,
    total := some 0,
    data := none,
    dataFormat := "binary",
    timeout := 0,
    xhr := true,
    xhrInFlight := false,
    loaderPresent := false,
    loaderPending := none,
    activeDisconnect := false,
    request := true,
    requests := [] }

/-- `[onStart]`: `loadstart` on the discovery request. -/
def onStart (s : St) : St × List Emitted :=
  ({ s with state := 1 }, [.start])

/-- `[onClose]`: `abort` event on either XMLHttpRequest.  An operator-initiated
disconnect consumes the `_active_disconnect` flag and stays silent; otherwise a
CLOSE notification is emitted. -/
def onClose (s : St) : St × List Emitted :=
  if s.activeDisconnect then ({ s with activeDisconnect := false }, [])
  else (s, [.closeEvt s.loaded s.total])

/-- `[onError]`: transport-level failure. -/
def onError (s : St) : St × List Emitted :=
  (s, [.errorEvt 1000 .error "network error"])

/-- `[abort]`: abort both XMLHttpRequest objects.  Aborting an in-flight
request synchronously fires its `abort` event, which runs `[onClose]`.
(The `removeEventListener` calls of the source are modelled separately, see
`abortDetach`: they use fresh `bind` results and remove nothing.) -/
def abortFn (s : St) : St × List Emitted :=
  let p1 :=
    if s.xhr && s.xhrInFlight then onClose { s with xhrInFlight := false }
    else (s, [])
  let p2 :=
    if p1.1.loaderPresent && p1.1.loaderPending.isSome then
      onClose { p1.1 with loaderPending := none }
    else (p1.1, [])
  (p2.1, p1.2 ++ p2.2)

/-- `[slice]`: enter DOWNLOADING and open a chunk session whose `Range` header
is `bytes=loaded-(loaded+204799)`.  The issued interval is also appended to
the ghost request log. -/
def slice (s : St) : St :=
  let rge : Nat × Nat := (s.loaded, s.loaded + 204799)
  { s with
    state := 3,
    loaderPresent := true,
    loaderPending := some rge,
    requests := s.requests ++ [rge] }

/-- `pause()`: only in DOWNLOADING; mark the disconnect as operator-initiated
and abort the in-flight session. -/
def pauseFn (s : St) : St × List Emitted :=
  if s.state ≠ 3 then (s, [])
  else abortFn { s with activeDisconnect := true }

/-- `resume()`: only in DOWNLOADING; re-issue a chunk session via `[slice]`. -/
def resumeFn (s : St) : St × List Emitted :=
  if s.state ≠ 3 then (s, []) else (slice s, [])

/-- `close()`: `[abort]` then `[reset]`. -/
def closeFn (s : St) : St × List Emitted :=
  let p := abortFn s
  (resetFn p.1, p.2)

/-- `load(request)`: store the request if one is passed, then
`this._xhr.open(...)` / `send(...)`.  When `_xhr` or `_request` is `null` the
member access throws, the `catch` rethrows a TypeError, and no transfer
starts; otherwise the request goes in flight. -/
def loadFn (s : St) (withReq : Bool) : Except String St :=
  let s1 := if withReq then { s with request := true } else s
  if s1.xhr = false then .error "TypeError"
  else if s1.request = false then .error "TypeError"
  else .ok { s1 with xhrInFlight := true }

/-- `[onHTTPStatus]`: `readystatechange` on either XMLHttpRequest.  `status`
and `readyState` come from the firing request (`evt.target`); the
Content-Length header is read from the discovery request `_xhr` and is `none`
when absent (`getResponseHeader` returns `null`, the only falsy case of the
`!this.bytesTotal` test, since a present header value is a non-empty string).
On a usable header the source sets `_active_disconnect`, aborts the discovery
request (which fires `[onClose]`), starts the first chunk via `[slice]` and
registers the connectivity listeners (`[aline]`, no modelled state). -/
def onHTTPStatus (s : St) (status readyState : Nat) (headerCL : Option Nat) :
    St × List Emitted :=
  if status = 0 then (s, [])
  else if readyState = 2 then
    let s1 := if s.state < 2 then { s with state := 2 } else s
    if 400 ≤ status then
      (s1, [.errorEvt status .error
        (if 500 ≤ status then "server error" else "request error")])
    else if 3 ≤ s1.state then (s1, [])
    else
      match headerCL with
      | none =>
          ({ s1 with total := none },
           [.errorEvt 1001 .error "unable to get file size"])
      | some n =>
          let s2 := { s1 with total := some n, activeDisconnect := true }
          let p := abortFn s2
          (slice p.1, p.2)
  else (s, [])

/-- `[onProgress]`: `progress` on the chunk request.  Mutates nothing; emits a
PROGRESS notification carrying `bytesLoaded + evt.loaded` unless the chunk
request has not reached its headers or already failed. -/
def onProgress (s : St) (loaderReadyState loaderStatus evtLoaded : Nat) :
    St × List Emitted :=
  if loaderReadyState < 2 then (s, [])
  else if 400 ≤ loaderStatus then (s, [])
  else (s, [.progressEvt (s.loaded + evtLoaded) s.total])

/-- `[onComplete]`: `load` on the chunk request.  Appends the response at
offset `bytesLoaded` into a fresh buffer of size `loaded + response.length`
(`Int8Array` copy), commits the new buffer and cursor, then either slices the
next chunk or terminates in COMPLETE (which also runs `[rline]`, no modelled
state). -/
def onComplete (s : St) (loaderStatus : Nat) (resp : List Nat) :
    St × List Emitted :=
  if s.loaderPresent = true ∧ loaderStatus < 400 then
    let s1 := { s with loaderPending := none }
    let ln := s1.loaded + resp.length
    let base := match s1.data with
      | none => List.replicate ln 0
      | some d => writeAt (List.replicate ln 0) 0 d
    let d1 := writeAt base s1.loaded resp
    let s2 := { s1 with data := some d1, loaded := ln }
    if ltTot s2.loaded s2.total then (slice s2, [])
    else ({ s2 with state := 4 }, [.completeEvt d1])
  else (s, [])

/-- `[online]`: connectivity recovery.  While DOWNLOADING, re-issue a chunk
session at the current offset and emit a STATUS-level recovery notification;
in any other state do nothing. -/
def onlineH (s : St) : St × List Emitted :=
  if s.state = 3 then
    (slice s, [.netState "online" .status "network recovery"])
  else (s, [])

/-- `[offline]`: a WARNING-level notification, no state change. -/
def offlineH (s : St) : St × List Emitted :=
  (s, [.netState "offline" .warning "network disconnection"])

/-- The `dataFormat` setter of `FileLoader`: any value other than
`LoaderDataFormat.BINARY` throws a TypeError; `BINARY` itself performs no
assignment, so the stored value is unchanged either way. -/
def setDataFormat (s : St) (value : String) : Except String St :=
  if value = "binary" then .ok s else .error "TypeError"

/-- A sequence of attempted `dataFormat` assignments; a throwing assignment
leaves the state as it was. -/
def applyFormats (s : St) (vs : List String) : St :=
  vs.foldl (fun t v => match setDataFormat t v with
    | .ok t1 => t1
    | .error _ => t) s

/-- A range-respecting HTTP server over resource `R`: a request for bytes
`a..b` is answered with the available bytes of that interval (the interval is
clipped server-side at the end of the resource). -/
def serveRange (R : List Nat) (a b : Nat) : List Nat :=
  (R.drop a).take (b + 1 - a)

/-- The engine right after `load()` put the discovery request in flight. -/
def startedSt : St := { initSt with xhrInFlight := true }

/-- Drive the chunk loop against server resource `R`: while a chunk request is
pending in DOWNLOADING, serve it (status 206) and fire the chunk session's
`load` event.  Returns the final state, the list of byte intervals actually
served, and the emitted notifications. -/
def chunkLoop (R : List Nat) : Nat → St → St × List (Nat × Nat) × List Emitted
  | 0, s => (s, [], [])
  | fuel + 1, s =>
    if s.state = 3 then
      match s.loaderPending with
      | some (a, b) =>
        let resp := serveRange R a b
        let p := onComplete s 206 resp
        let q := chunkLoop R fuel p.1
        (q.1, (a, a + resp.length - 1) :: q.2.1, p.2 ++ q.2.2)
      | none => (s, [], [])
    else (s, [], [])

/-- A complete chunked transfer: `loadstart`, header discovery at readiness 2
with Content-Length `R.length`, then the chunk loop. -/
def fileRun (R : List Nat) (fuel : Nat) : St × List (Nat × Nat) × List Emitted :=
  let p1 := onStart startedSt
  let p2 := onHTTPStatus p1.1 200 2 (some R.length)
  let q := chunkLoop R fuel p2.1
  (q.1, q.2.1, p1.2 ++ p2.2 ++ q.2.2)

/-- A transfer whose header-discovery response carries Content-Length
`headerCL`: `loadstart` then every `readystatechange` of the discovery
request (readiness 2, 3, 4).  No other event source exists for the transfer
when discovery fails, since the engine attaches no `load`/`progress` listener
to the discovery request. -/
def headerRun (status : Nat) (headerCL : Option Nat) : St × List Emitted :=
  let p1 := onStart startedSt
  let p2 := onHTTPStatus p1.1 status 2 headerCL
  let p3 := onHTTPStatus p2.1 status 3 headerCL
  let p4 := onHTTPStatus p3.1 status 4 headerCL
  (p4.1, p1.2 ++ p2.2 ++ p3.2 ++ p4.2)

/-- One operator pause immediately followed by resume. -/
def prCycle (s : St) : St := (resumeFn (pauseFn s).1).1

/-- `k` pause/resume cycles. -/
def prCycles : Nat → St → St
  | 0, s => s
  | k + 1, s => prCycles k (prCycle s)

/-- The chunk loop where, before each chunk is delivered, the operator runs
`sched.headD 0` pause/resume cycles. -/
def chunkLoopPR (R : List Nat) : List Nat → Nat → St → St
  | _, 0, s => s
  | sched, fuel + 1, s =>
    if s.state = 3 then
      let s1 := prCycles (sched.headD 0) s
      match s1.loaderPending with
      | some (a, b) =>
          chunkLoopPR R sched.tail fuel (onComplete s1 206 (serveRange R a b)).1
      | none => s1
    else s

/-- A complete chunked transfer with operator pause/resume cycles injected by
`sched` before each chunk delivery. -/
def fileRunPR (R : List Nat) (sched : List Nat) (fuel : Nat) : St :=
  let p1 := onStart startedSt
  let p2 := onHTTPStatus p1.1 200 2 (some R.length)
  chunkLoopPR R sched fuel p2.1

/-- The mutable fields of a `URLLoader` instance (the non-chunked
whole-resource loader).  `_total` is a plain number here (`reset` stores 0 and
`onProgress` stores `evt.total`), so falsiness is the test against 0. -/
structure USt where
  uloaded : Nat
  utotal : Nat
  udata : Option (List Nat)
  udataFormat : String
deriving DecidableEq

/-- `URLLoader.[reset]` (the default `dataFormat` is TEXT). -/
def uReset : USt :=
  { uloaded := 0, utotal := 0, udata := none, udataFormat := "text" }

/-- The `dataFormat` setter of `URLLoader`: BINARY, TEXT, DOCUMENT and JSON
are stored, anything else throws a TypeError. -/
def uSetDataFormat (u : USt) (value : String) : Except String USt :=
  if value = "binary" ∨ value = "text" ∨ value = "document" ∨ value = "json"
  then .ok { u with udataFormat := value }
  else .error "TypeError"

/-- `URLLoader.[onProgress]`: commits `evt.loaded` (and `evt.total` when the
total is still unset), then discards the event - emitting nothing - when the
total is unknown or the committed loaded exceeds it. -/
def urlOnProgress (u : USt) (readyState status evtLoaded evtTotal : Nat) :
    USt × List Emitted :=
  if readyState < 2 then (u, [])
  else if 400 ≤ status then (u, [])
  else
    let u1 := { u with uloaded := evtLoaded }
    let u2 := if u1.utotal = 0 then { u1 with utotal := evtTotal } else u1
    if u2.utotal = 0 ∨ u2.utotal < u2.uloaded then (u2, [])
    else (u2, [.progressEvt u2.uloaded (some u2.utotal)])

/-- `URLLoader.[onComplete]`: on success store the response as `data` (for a
binary response buffer every branch of the source's `dataFormat` switch stores
the response unchanged) and emit COMPLETE with it. -/
def urlOnComplete (u : USt) (status : Nat) (response : List Nat) :
    USt × List Emitted :=
  if 400 ≤ status then (u, [])
  else
    let u1 :=
      if u.udataFormat = "binary" ∨ u.udataFormat = "text" ∨
         u.udataFormat = "document" ∨ u.udataFormat = "json"
      then { u with udata := some response } else u
    (u1, [.completeEvt (u1.udata.getD [])])

/-- A single non-chunked whole-resource fetch of `R`: a fresh `URLLoader` with
`dataFormat = BINARY`, success response `R`.  Returns the resulting `data`. -/
def urlFetch (R : List Nat) : Option (List Nat) :=
  match uSetDataFormat uReset "binary" with
  | .ok u => ((urlOnComplete u 200 R).1).udata
  | .error _ => none

/-- An XMLHttpRequest's listener registry: pairs of event type and callback
identity.  Every `this[handler].bind(this)` in the source produces a fresh
function object, modelled by consecutive identities drawn from a counter. -/
structure XhrObj where
  listeners : List (String × Nat)
deriving DecidableEq

/-- `addEventListener`. -/
def addL (x : XhrObj) (ev : String) (id : Nat) : XhrObj :=
  { x with listeners := x.listeners ++ [(ev, id)] }

/-- `removeEventListener`: removes the registration matching both the event
type and the callback identity (and nothing otherwise). -/
def removeL (x : XhrObj) (ev : String) (id : Nat) : XhrObj :=
  { x with listeners :=
      x.listeners.filter (fun p => !(p.1 == ev && p.2 == id)) }

/-- The listener registrations `[slice]` performs on the fresh chunk
XMLHttpRequest: progress, abort, load, readystatechange, each with a fresh
`bind` identity starting at `n`. -/
def sliceAttach (n : Nat) : XhrObj × Nat :=
  (addL (addL (addL (addL { listeners := [] } "progress" n)
    "abort" (n + 1)) "load" (n + 2)) "readystatechange" (n + 3), n + 4)

/-- The listener removals `[abort]` attempts on the chunk session: load,
progress, abort, readystatechange, each passing a fresh `bind` identity
(`this[handler].bind(this)` evaluated anew at removal time). -/
def abortDetach (x : XhrObj) (n : Nat) : XhrObj × Nat :=
  (removeL (removeL (removeL (removeL x "load" n) "progress" (n + 1))
    "abort" (n + 2)) "readystatechange" (n + 3), n + 4)


/-! ## Helper lemmas -/

theorem writeAt_zero_pad (d : List Nat) (k : Nat) :
    writeAt (List.replicate (d.length + k) 0) 0 d = d ++ List.replicate k 0 := by
  simp [writeAt, List.drop_replicate]

theorem writeAt_fill (d r : List Nat) :
    writeAt (d ++ List.replicate r.length 0) d.length r = d ++ r := by
  have h2 : List.drop (d.length + r.length) (d ++ List.replicate r.length 0) = [] := by
    apply List.drop_eq_nil_of_le
    simp
  simp [writeAt, List.take_left, h2]

theorem writeAt_self (r : List Nat) :
    writeAt (List.replicate r.length 0) 0 r = r := by
  simp [writeAt, List.drop_replicate]

theorem serveRange_eq (R : List Nat) (l : Nat) :
    serveRange R l (l + 204799) = List.take 204800 (List.drop l R) := by
  unfold serveRange
  congr 1
  omega

theorem onComplete_serve (R : List Nat) (s : St)
    (hp : s.loaderPresent = true)
    (ht : s.total = some R.length)
    (hd : s.data = some (List.take s.loaded R) ∨ (s.data = none ∧ s.loaded = 0))
    (hle : s.loaded ≤ R.length) :
    onComplete s 206 (serveRange R s.loaded (s.loaded + 204799)) =
      (if s.loaded + min 204800 (R.length - s.loaded) < R.length then
        ({ s with
           state := 3,
           loaded := s.loaded + min 204800 (R.length - s.loaded),
           data := some (List.take (s.loaded + min 204800 (R.length - s.loaded)) R),
           loaderPresent := true,
           loaderPending := some (s.loaded + min 204800 (R.length - s.loaded),
             s.loaded + min 204800 (R.length - s.loaded) + 204799),
           requests := s.requests ++ [(s.loaded + min 204800 (R.length - s.loaded),
             s.loaded + min 204800 (R.length - s.loaded) + 204799)] }, [])
       else
        ({ s with
           state := 4,
           loaded := R.length,
           data := some R,
           loaderPending := none }, [.completeEvt R])) := by
  have hlen : (List.take 204800 (List.drop s.loaded R)).length =
      204800 ⊓ (R.length - s.loaded) := by
    simp [List.length_take, List.length_drop]
  have htakeadd : List.take s.loaded R ++ List.take 204800 (List.drop s.loaded R) =
      List.take (s.loaded + 204800 ⊓ (R.length - s.loaded)) R := by
    rw [← List.take_add]
    rw [List.take_eq_take]
    omega
  rcases hd with hd | ⟨hd, hl0⟩
  · have hTl : (List.take s.loaded R).length = s.loaded := by
      simp [List.length_take]
      omega
    have hbase2 : writeAt (List.replicate (s.loaded + 204800 ⊓ (R.length - s.loaded)) 0) 0
        (List.take s.loaded R) =
        List.take s.loaded R ++ List.replicate (204800 ⊓ (R.length - s.loaded)) 0 := by
      have h := writeAt_zero_pad (List.take s.loaded R) (204800 ⊓ (R.length - s.loaded))
      rwa [hTl] at h
    have hfill2 : writeAt
        (List.take s.loaded R ++ List.replicate (204800 ⊓ (R.length - s.loaded)) 0)
        s.loaded (List.take 204800 (List.drop s.loaded R)) =
        List.take (s.loaded + 204800 ⊓ (R.length - s.loaded)) R := by
      have h := writeAt_fill (List.take s.loaded R) (List.take 204800 (List.drop s.loaded R))
      rw [hTl, hlen] at h
      rw [h, htakeadd]
    simp only [onComplete, serveRange_eq, hp, hd, ht, ltTot, hlen]
    simp only [hbase2, hfill2]
    by_cases hc : s.loaded + 204800 ⊓ (R.length - s.loaded) < R.length
    · simp [hc, slice, ht]
    · have heq : s.loaded + 204800 ⊓ (R.length - s.loaded) = R.length := by omega
      simp [hc, ht, heq, List.take_length]
  · have hlen0 : (List.take 204800 R).length = 204800 ⊓ R.length := by
      simp [List.length_take]
    have hr0 : writeAt (List.replicate (204800 ⊓ R.length) 0) 0 (List.take 204800 R) =
        List.take 204800 R := by
      rw [← hlen0]
      exact writeAt_self _
    have htk0 : List.take 204800 R = List.take (204800 ⊓ R.length) R := by
      rw [List.take_eq_take]
      omega
    simp only [onComplete, serveRange_eq, hp, hd, ht, ltTot, hl0, List.drop_zero,
      Nat.zero_add, Nat.sub_zero, hlen0, hr0, slice]
    by_cases hc : 204800 ⊓ R.length < R.length
    · simp [hc, ← htk0]
    · have heq : 204800 ⊓ R.length = R.length := by omega
      simp [hc, htk0, heq, List.take_length]


/-- The invariant maintained across the chunk loop of a transfer whose server
resource is `R`. -/
def ChunkInv (R : List Nat) (s : St) : Prop :=
  s.loaderPresent = true ∧
  s.total = some R.length ∧
  (s.data = some (List.take s.loaded R) ∨ (s.data = none ∧ s.loaded = 0)) ∧
  s.loaded ≤ R.length ∧
  s.xhrInFlight = false ∧
  s.activeDisconnect = false ∧
  (s.state = 3 → s.loaderPending = some (s.loaded, s.loaded + 204799))

/-- Header discovery on a 2xx response carrying Content-Length `T`: the
discovery request is aborted silently (the operator flag is set first, so its
`abort` event emits nothing) and the first chunk session is opened. -/
theorem discovery_eq (T : Nat) :
    onHTTPStatus (onStart startedSt).1 200 2 (some T) =
      ({ state := 3, loaded := 0, total := some T, data := none,
         dataFormat := "binary", timeout := 0, xhr := true, xhrInFlight := false,
         loaderPresent := true, loaderPending := some (0, 204799),
         activeDisconnect := false, request := true,
         requests := [(0, 204799)] }, []) := by
  simp [onStart, startedSt, initSt, onHTTPStatus, abortFn, onClose, slice]

/-- One pause/resume cycle in DOWNLOADING: the chunk session is torn down and
re-issued at the same cursor; only the ghost request log grows. -/
theorem prCycle_eq (s : St) (h3 : s.state = 3) (hx : s.xhrInFlight = false)
    (ha : s.activeDisconnect = false) (hp : s.loaderPresent = true)
    (hpend : s.loaderPending.isSome = true) :
    prCycle s = { s with
      loaderPending := some (s.loaded, s.loaded + 204799),
      requests := s.requests ++ [(s.loaded, s.loaded + 204799)] } := by
  simp [prCycle, pauseFn, resumeFn, abortFn, onClose, slice, h3, hx, ha, hp, hpend]

/-- Iterated pause/resume cycles in DOWNLOADING leave every non-ghost field
unchanged. -/
theorem prCycles_eq (k : Nat) : ∀ (s : St), s.state = 3 → s.xhrInFlight = false →
    s.activeDisconnect = false → s.loaderPresent = true →
    s.loaderPending = some (s.loaded, s.loaded + 204799) →
    prCycles k s =
      { s with requests := s.requests ++ List.replicate k (s.loaded, s.loaded + 204799) } := by
  induction k with
  | zero =>
    intro s _ _ _ _ _
    simp [prCycles]
  | succ n ih =>
    intro s h3 hx ha hp hpend
    rw [prCycles]
    rw [prCycle_eq s h3 hx ha hp (by simp [hpend])]
    rw [ih _ (by simp [h3]) (by simp [hx]) (by simp [ha]) (by simp [hp]) (by simp)]
    simp [List.replicate_succ, hpend]

/-- The chunk loop does nothing outside DOWNLOADING. -/
theorem chunkLoopPR_stop (R : List Nat) (sched : List Nat) (fuel : Nat) (s : St)
    (h : s.state ≠ 3) : chunkLoopPR R sched fuel s = s := by
  cases fuel <;> simp [chunkLoopPR, h]


/-- Enough fuel drives the chunk loop, with any pause/resume schedule, to
COMPLETE with the whole resource assembled. -/
theorem chunkLoopPR_complete (R : List Nat) :
    ∀ (fuel : Nat) (sched : List Nat) (s : St), ChunkInv R s → s.state = 3 →
    R.length - s.loaded < fuel →
    (chunkLoopPR R sched fuel s).state = 4 ∧
    (chunkLoopPR R sched fuel s).data = some R ∧
    (chunkLoopPR R sched fuel s).loaded = R.length := by
  intro fuel
  induction fuel with
  | zero =>
    intro sched s _ _ hf
    omega
  | succ n ih =>
    intro sched s hInv h3 hf
    obtain ⟨hp, ht, hd, hle, hx, ha, hpend⟩ := hInv
    have hpe := hpend h3
    have hcyc := prCycles_eq (sched.headD 0) s h3 hx ha hp hpe
    have hserve := onComplete_serve R
      { s with requests := s.requests ++ List.replicate (sched.headD 0) (s.loaded, s.loaded + 204799) }
      (by simpa using hp) (by simpa using ht) (by simpa using hd) (by simpa using hle)
    dsimp only at hserve
    simp only [hpe] at hserve
    simp only [chunkLoopPR, hcyc, hpe]
    rw [if_pos h3, hserve]
    by_cases hcase : s.loaded + min 204800 (R.length - s.loaded) < R.length
    · rw [if_pos hcase]
      apply ih
      · refine ⟨rfl, ht, Or.inl rfl, by dsimp only; omega, hx, ha, fun _ => rfl⟩
      · rfl
      · dsimp only
        omega
    · rw [if_neg hcase]
      rw [chunkLoopPR_stop]
      · exact ⟨rfl, rfl, rfl⟩
      · simp


/-- The chunk loop preserves the transfer invariant and never moves the byte
cursor backwards. -/
theorem chunkLoopPR_inv (R : List Nat) :
    ∀ (fuel : Nat) (sched : List Nat) (s : St), ChunkInv R s →
    ChunkInv R (chunkLoopPR R sched fuel s) ∧
    s.loaded ≤ (chunkLoopPR R sched fuel s).loaded := by
  intro fuel
  induction fuel with
  | zero =>
    intro sched s hInv
    exact ⟨hInv, le_refl _⟩
  | succ n ih =>
    intro sched s hInv
    by_cases h3 : s.state = 3
    · obtain ⟨hp, ht, hd, hle, hx, ha, hpend⟩ := hInv
      have hpe := hpend h3
      have hcyc := prCycles_eq (sched.headD 0) s h3 hx ha hp hpe
      have hserve := onComplete_serve R
        { s with requests := s.requests ++ List.replicate (sched.headD 0) (s.loaded, s.loaded + 204799) }
        (by simpa using hp) (by simpa using ht) (by simpa using hd) (by simpa using hle)
      dsimp only at hserve
      simp only [hpe] at hserve
      simp only [chunkLoopPR, hcyc, hpe]
      rw [if_pos h3, hserve]
      by_cases hcase : s.loaded + min 204800 (R.length - s.loaded) < R.length
      · rw [if_pos hcase]
        have hnext := ih sched.tail
          { state := 3, loaded := s.loaded + 204800 ⊓ (R.length - s.loaded), total := s.total,
            data := some (List.take (s.loaded + 204800 ⊓ (R.length - s.loaded)) R),
            dataFormat := s.dataFormat, timeout := s.timeout, xhr := s.xhr,
            xhrInFlight := s.xhrInFlight, loaderPresent := true,
            loaderPending := some (s.loaded + 204800 ⊓ (R.length - s.loaded),
              s.loaded + 204800 ⊓ (R.length - s.loaded) + 204799),
            activeDisconnect := s.activeDisconnect, request := s.request,
            requests := (s.requests ++ List.replicate (sched.headD 0) (s.loaded, s.loaded + 204799)) ++
              [(s.loaded + 204800 ⊓ (R.length - s.loaded),
                s.loaded + 204800 ⊓ (R.length - s.loaded) + 204799)] }
          ⟨rfl, ht, Or.inl rfl, by dsimp only; omega, hx, ha, fun _ => rfl⟩
        refine ⟨hnext.1, le_trans ?_ hnext.2⟩
        dsimp only
        omega
      · rw [if_neg hcase]
        rw [chunkLoopPR_stop]
        · refine ⟨⟨hp, ht, Or.inl ?_, by dsimp only; omega,
            hx, ha, fun h => by simp at h⟩, by dsimp only; omega⟩
          dsimp only
          rw [List.take_length]
        · simp
    · rw [chunkLoopPR_stop _ _ _ _ h3]
      exact ⟨hInv, le_refl _⟩

/-- The canonical state right after successful header discovery satisfies the
transfer invariant, and a full run with enough fuel completes with the whole
resource. -/
theorem fileRunPR_complete (R : List Nat) (sched : List Nat) (fuel : Nat)
    (hfuel : R.length < fuel) :
    (fileRunPR R sched fuel).state = 4 ∧ (fileRunPR R sched fuel).data = some R := by
  have hdis := discovery_eq R.length
  simp only [fileRunPR, hdis]
  have h := chunkLoopPR_complete R fuel sched
    { state := 3, loaded := 0, total := some R.length, data := none,
      dataFormat := "binary", timeout := 0, xhr := true, xhrInFlight := false,
      loaderPresent := true, loaderPending := some (0, 204799),
      activeDisconnect := false, request := true, requests := [(0, 204799)] }
    ⟨rfl, rfl, Or.inr ⟨rfl, rfl⟩, by exact Nat.zero_le _, rfl, rfl, fun _ => by simp⟩ rfl
    (by dsimp only; omega)
  exact ⟨h.1, h.2.1⟩


/-- One iteration of the logging chunk loop. -/
theorem chunkLoop_step (R : List Nat) (fuel : Nat) (s : St) (a b : Nat)
    (h3 : s.state = 3) (hpend : s.loaderPending = some (a, b)) :
    chunkLoop R (fuel + 1) s =
      ((chunkLoop R fuel (onComplete s 206 (serveRange R a b)).1).1,
       (a, a + (serveRange R a b).length - 1) ::
         (chunkLoop R fuel (onComplete s 206 (serveRange R a b)).1).2.1,
       (onComplete s 206 (serveRange R a b)).2 ++
         (chunkLoop R fuel (onComplete s 206 (serveRange R a b)).1).2.2) := by
  simp only [chunkLoop, hpend]
  rw [if_pos h3]

/-- The complete 500000-byte scenario: header discovery, then three chunk
deliveries.  The issued `Range` headers are uncapped
(`bytes=409600-614399` for the last chunk); the server clips, so the served
intervals end at byte 499999; the transfer completes with the whole
resource. -/
theorem fileRun_500000 (R : List Nat) (h : R.length = 500000) :
    fileRun R 3 =
      ({ state := 4, loaded := 500000, total := some 500000, data := some R,
         dataFormat := "binary", timeout := 0, xhr := true, xhrInFlight := false,
         loaderPresent := true, loaderPending := none,
         activeDisconnect := false, request := true,
         requests := [(0, 204799), (204800, 409599), (409600, 614399)] },
       [(0, 204799), (204800, 409599), (409600, 499999)],
       [.start, .completeEvt R]) := by
  have hdis := discovery_eq R.length
  rw [h] at hdis
  simp only [fileRun, h, hdis]
  have hmA : (204800 : Nat) ⊓ 500000 = 204800 := by decide
  have hmB : (204800 : Nat) ⊓ 295200 = 204800 := by decide
  have hmC : (204800 : Nat) ⊓ 90400 = 90400 := by decide
  have hl1 : (serveRange R 0 204799).length = 204800 := by
    simp [serveRange]
    omega
  have hl2 : (serveRange R 204800 409599).length = 204800 := by
    simp [serveRange]
    omega
  have hl3 : (serveRange R 409600 614399).length = 90400 := by
    simp [serveRange]
    omega
  have hstep1 := chunkLoop_step R 2
    { state := 3, loaded := 0, total := some 500000, data := none,
      dataFormat := "binary", timeout := 0, xhr := true, xhrInFlight := false,
      loaderPresent := true, loaderPending := some (0, 204799),
      activeDisconnect := false, request := true, requests := [(0, 204799)] }
    0 204799 rfl rfl
  norm_num at hstep1
  rw [hstep1]
  have hoc1 := onComplete_serve R
    { state := 3, loaded := 0, total := some 500000, data := none,
      dataFormat := "binary", timeout := 0, xhr := true, xhrInFlight := false,
      loaderPresent := true, loaderPending := some (0, 204799),
      activeDisconnect := false, request := true, requests := [(0, 204799)] }
    rfl (by rw [h]) (Or.inr ⟨rfl, rfl⟩) (by exact Nat.zero_le _)
  rw [h] at hoc1
  norm_num [hmA] at hoc1
  rw [hoc1]
  dsimp only
  have hstep2 := chunkLoop_step R 1
    { state := 3, loaded := 204800, total := some 500000, data := some (List.take 204800 R),
      dataFormat := "binary", timeout := 0, xhr := true, xhrInFlight := false,
      loaderPresent := true, loaderPending := some (204800, 409599),
      activeDisconnect := false, request := true,
      requests := [(0, 204799), (204800, 409599)] }
    204800 409599 rfl rfl
  norm_num at hstep2
  rw [hstep2]
  have hoc2 := onComplete_serve R
    { state := 3, loaded := 204800, total := some 500000, data := some (List.take 204800 R),
      dataFormat := "binary", timeout := 0, xhr := true, xhrInFlight := false,
      loaderPresent := true, loaderPending := some (204800, 409599),
      activeDisconnect := false, request := true,
      requests := [(0, 204799), (204800, 409599)] }
    rfl (by rw [h]) (Or.inl rfl) (by rw [h]; dsimp only; norm_num)
  rw [h] at hoc2
  norm_num [hmB] at hoc2
  rw [hoc2]
  dsimp only
  have hstep3 := chunkLoop_step R 0
    { state := 3, loaded := 409600, total := some 500000, data := some (List.take 409600 R),
      dataFormat := "binary", timeout := 0, xhr := true, xhrInFlight := false,
      loaderPresent := true, loaderPending := some (409600, 614399),
      activeDisconnect := false, request := true,
      requests := [(0, 204799), (204800, 409599), (409600, 614399)] }
    409600 614399 rfl rfl
  norm_num at hstep3
  rw [hstep3]
  have hoc3 := onComplete_serve R
    { state := 3, loaded := 409600, total := some 500000, data := some (List.take 409600 R),
      dataFormat := "binary", timeout := 0, xhr := true, xhrInFlight := false,
      loaderPresent := true, loaderPending := some (409600, 614399),
      activeDisconnect := false, request := true,
      requests := [(0, 204799), (204800, 409599), (409600, 614399)] }
    rfl (by rw [h]) (Or.inl rfl) (by rw [h]; dsimp only; norm_num)
  rw [h] at hoc3
  norm_num [hmC] at hoc3
  rw [hoc3]
  simp only [chunkLoop, onStart, hl1, hl2, hl3]
  norm_num


/-! ## Claim theorems -/

/-- A sample server resource and a reachable mid-transfer DOWNLOADING state
(after the first chunk of a 500000-byte resource), used by witnesses. -/
def sampleR : List Nat := List.replicate 500000 7

/-- See `sampleR`. -/
def sampleDownloading : St :=
  { state := 3, loaded := 204800, total := some 500000,
    data := some (List.take 204800 sampleR), dataFormat := "binary", timeout := 0,
    xhr := true, xhrInFlight := false, loaderPresent := true,
    loaderPending := some (204800, 409599), activeDisconnect := false,
    request := true, requests := [(0, 204799), (204800, 409599)] }

/-- C5: a 2xx header-discovery response without Content-Length yields exactly
one ERROR notification, code 1001 at level ERROR, and the transfer does not
proceed: the full event trace is START then that single ERROR, no chunk
request is ever issued, no chunk session exists, and no PROGRESS or COMPLETE
is ever emitted. -/
theorem c5_no_content_length (status : Nat) (h2 : 200 ≤ status) (h3 : status < 300) :
    (headerRun status none).2 =
      [.start, .errorEvt 1001 .error "unable to get file size"] ∧
    (headerRun status none).1.requests = [] ∧
    (headerRun status none).1.loaderPresent = false ∧
    (headerRun status none).1.state = 2 := by
  have h0 : ¬ status = 0 := by omega
  have h4 : ¬ 400 ≤ status := by omega
  simp [headerRun, onStart, onHTTPStatus, h0, h4, startedSt, initSt]

/-- C5 witness at status 200. -/
theorem c5_witness :
    (headerRun 200 none).2 =
      [.start, .errorEvt 1001 .error "unable to get file size"] ∧
    (headerRun 200 none).1.requests = [] :=
  ⟨(c5_no_content_length 200 (by decide) (by decide)).1,
   (c5_no_content_length 200 (by decide) (by decide)).2.1⟩

/-- C7: an online signal while DOWNLOADING re-issues a chunk session exactly
as `resume()` would, starting at the current `bytesLoaded`, and emits the
STATUS-level network-recovery notification; in any other state the signal
does nothing. -/
theorem c7_online_recovery (s : St) :
    (s.state = 3 →
      onlineH s = ((resumeFn s).1, [.netState "online" .status "network recovery"]) ∧
      (onlineH s).1.loaderPending = some (s.loaded, s.loaded + 204799) ∧
      (onlineH s).1.loaded = s.loaded ∧
      (onlineH s).1.total = s.total) ∧
    (s.state ≠ 3 → onlineH s = (s, [])) := by
  constructor
  · intro h3
    refine ⟨?_, ?_, ?_, ?_⟩ <;> simp [onlineH, resumeFn, slice, h3]
  · intro h3
    simp [onlineH, h3]

/-- C7 witness at a reachable DOWNLOADING state. -/
theorem c7_witness :
    onlineH sampleDownloading =
      ((resumeFn sampleDownloading).1,
       [.netState "online" .status "network recovery"]) :=
  ((c7_online_recovery sampleDownloading).1 rfl).1

/-- C9: the claim is what the source intends but the code does not do.  The
`removeEventListener` calls of `[abort]` pass freshly created `bind`
identities, so after aborting a chunk session every one of the four callbacks
registered by `[slice]` is still registered: the dead session keeps all its
engine callbacks, it does not end up with none. -/
theorem c9_detach_fails :
    ((abortDetach (sliceAttach 0).1 (sliceAttach 0).2).1).listeners =
      (sliceAttach 0).1.listeners ∧
    (sliceAttach 0).1.listeners ≠ [] := by
  constructor <;> decide

/-- C10: the FileLoader `dataFormat` always reads the binary constant: a
non-BINARY assignment throws a TypeError (leaving the state untouched), a
BINARY assignment stores nothing, every sequence of attempted assignments
leaves `dataFormat` at the binary constant, and `reset` restores it. -/
theorem c10_dataFormat_locked (s : St) (h : s.dataFormat = "binary") :
    (∀ v, v ≠ "binary" → setDataFormat s v = .error "TypeError") ∧
    setDataFormat s "binary" = .ok s ∧
    (∀ vs, (applyFormats s vs).dataFormat = "binary") ∧
    (∀ t : St, (resetFn t).dataFormat = "binary") := by
  have key : ∀ (vs : List String) (t : St), applyFormats t vs = t := by
    intro vs
    induction vs with
    | nil =>
      intro t
      rfl
    | cons v vs ih =>
      intro t
      have hstep : (match setDataFormat t v with
          | .ok t1 => t1
          | .error _ => t) = t := by
        by_cases hv : v = "binary" <;> simp [setDataFormat, hv]
      calc applyFormats t (v :: vs)
          = applyFormats (match setDataFormat t v with
              | .ok t1 => t1
              | .error _ => t) vs := rfl
        _ = t := by rw [hstep, ih]
  refine ⟨?_, ?_, ?_, ?_⟩
  · intro v hv
    simp [setDataFormat, hv]
  · simp [setDataFormat]
  · intro vs
    rw [key vs s, h]
  · intro t
    rfl

/-- C10 witness. -/
theorem c10_witness :
    setDataFormat initSt "json" = .error "TypeError" ∧
    (applyFormats initSt ["json", "binary"]).dataFormat = "binary" :=
  ⟨(c10_dataFormat_locked initSt rfl).1 "json" (by decide),
   (c10_dataFormat_locked initSt rfl).2.2.1 ["json", "binary"]⟩

/-- C2: after every successful chunk append, if the advanced cursor has
reached the known total the engine moves to state 4 and emits exactly one
COMPLETE carrying the whole assembled buffer; otherwise it stays in state 3,
emits nothing, and issues the next ranged chunk request itself. -/
theorem c2_append_drives_loop (s : St) (T status : Nat) (resp : List Nat)
    (hp : s.loaderPresent = true) (hs : status < 400) (ht : s.total = some T) :
    (T ≤ s.loaded + resp.length →
      (onComplete s status resp).1.state = 4 ∧
      ∃ d, (onComplete s status resp).1.data = some d ∧
        (onComplete s status resp).2 = [.completeEvt d]) ∧
    (s.loaded + resp.length < T →
      (onComplete s status resp).1.state = 3 ∧
      (onComplete s status resp).2 = [] ∧
      (onComplete s status resp).1.loaderPending =
        some (s.loaded + resp.length, s.loaded + resp.length + 204799) ∧
      (onComplete s status resp).1.requests =
        s.requests ++ [(s.loaded + resp.length, s.loaded + resp.length + 204799)]) := by
  constructor
  · intro hge
    have hlt : ltTot (s.loaded + resp.length) s.total = false := by
      rw [ht]
      simp [ltTot]
      omega
    simp only [onComplete, hp, hs, hlt]
    simp
  · intro hlt0
    have hlt : ltTot (s.loaded + resp.length) s.total = true := by
      rw [ht]
      simp [ltTot]
      omega
    simp only [onComplete, hp, hs, hlt]
    simp [slice]

/-- C2 witness: a mid-transfer append that does not reach the total. -/
theorem c2_witness :
    (onComplete sampleDownloading 206 (List.replicate 100 1)).1.state = 3 ∧
    (onComplete sampleDownloading 206 (List.replicate 100 1)).2 = [] :=
  ⟨((c2_append_drives_loop sampleDownloading 500000 206 (List.replicate 100 1)
      rfl (by decide) rfl).2 (by simp [sampleDownloading])).1,
   ((c2_append_drives_loop sampleDownloading 500000 206 (List.replicate 100 1)
      rfl (by decide) rfl).2 (by simp [sampleDownloading])).2.1⟩


/-- C1 counterexample: on a 500000-byte resource, the third ranged request's
`Range` header interval as issued by the engine is `409600-614399`, not
`409600-499999` (the header end is always `loaded + 204799`, uncapped). -/
theorem c1_range_header_counterexample :
    (fileRun (List.replicate 500000 0) 3).1.requests =
      [(0, 204799), (204800, 409599), (409600, 614399)] ∧
    ¬ (fileRun (List.replicate 500000 0) 3).1.requests =
      [(0, 204799), (204800, 409599), (409600, 499999)] := by
  rw [fileRun_500000 (List.replicate 500000 0) (List.length_replicate 500000 0)]
  exact ⟨rfl, by decide⟩

/-- C1 (amended): the transfer of a 500000-byte resource issues exactly three
ranged requests, whose `Range` headers ask for `0-204799`, `204800-409599`
and `409600-614399`; the server clips the last one, so the served byte
intervals are `0-204799`, `204800-409599`, `409600-499999`; the trace ends in
the terminal COMPLETE carrying the whole 500000-byte resource. -/
theorem c1_three_chunks (R : List Nat) (h : R.length = 500000) :
    (fileRun R 3).1.requests = [(0, 204799), (204800, 409599), (409600, 614399)] ∧
    (fileRun R 3).2.1 = [(0, 204799), (204800, 409599), (409600, 499999)] ∧
    (fileRun R 3).2.2 = [.start, .completeEvt R] ∧
    (fileRun R 3).1.state = 4 ∧
    (fileRun R 3).1.data = some R := by
  rw [fileRun_500000 R h]
  exact ⟨rfl, rfl, rfl, rfl, rfl⟩

/-- C1 witness. -/
theorem c1_witness :
    (fileRun (List.replicate 500000 0) 3).2.1 =
      [(0, 204799), (204800, 409599), (409600, 499999)] ∧
    (fileRun (List.replicate 500000 0) 3).1.state = 4 :=
  ⟨(c1_three_chunks (List.replicate 500000 0) (List.length_replicate 500000 0)).2.1,
   (c1_three_chunks (List.replicate 500000 0) (List.length_replicate 500000 0)).2.2.2.1⟩

/-- C3 counterexample: in the chunked FileLoader a progress event whose
reported loaded exceeds the known total is NOT discarded.  At the reachable
state right after discovery of a 100-byte resource, a progress event claiming
150 received bytes produces a PROGRESS notification with loaded 150 over
total 100. -/
theorem c3_progress_not_discarded :
    (onProgress (onHTTPStatus (onStart startedSt).1 200 2 (some 100)).1 2 200 150).2 =
      [.progressEvt 150 (some 100)] ∧
    100 < 150 := by
  rw [discovery_eq 100]
  exact ⟨by simp [onProgress], by decide⟩

/-- C3 (amended): the committed `bytesLoaded` is monotonically non-decreasing
under chunk appends and, on runs of the chunk loop from an invariant state,
never exceeds the resource length; but the discarding of progress events that
overshoot the known total is done by the whole-resource URLLoader (whose
`onProgress` returns without emitting), not by the chunked FileLoader. -/
theorem c3_monotone_bounded_discard_in_urlloader :
    (∀ (s : St) (status : Nat) (resp : List Nat),
      s.loaded ≤ (onComplete s status resp).1.loaded) ∧
    (∀ (R sched : List Nat) (fuel : Nat) (s : St), ChunkInv R s →
      (chunkLoopPR R sched fuel s).loaded ≤ R.length) ∧
    (∀ (u : USt) (rs st el et : Nat), 2 ≤ rs → st < 400 → u.utotal ≠ 0 →
      u.utotal < el → (urlOnProgress u rs st el et).2 = []) := by
  refine ⟨?_, ?_, ?_⟩
  · intro s status resp
    simp only [onComplete]
    split
    · split
      · simp [slice]
      · simp
    · simp
  · intro R sched fuel s hInv
    exact ((chunkLoopPR_inv R fuel sched s hInv).1).2.2.2.1
  · intro u rs st el et hrs hst htotal hel
    have h1 : ¬ rs < 2 := by omega
    have h2 : ¬ 400 ≤ st := by omega
    simp only [urlOnProgress, h1, h2]
    simp [htotal, hel]

/-- C3 witness for the amended statement. -/
theorem c3_witness :
    (urlOnProgress { uloaded := 0, utotal := 100, udata := none, udataFormat := "text" }
      2 200 150 0).2 = [] ∧
    sampleDownloading.loaded ≤
      (onComplete sampleDownloading 206 (List.replicate 100 1)).1.loaded :=
  ⟨c3_monotone_bounded_discard_in_urlloader.2.2
      { uloaded := 0, utotal := 100, udata := none, udataFormat := "text" }
      2 200 150 0 (by decide) (by decide) (by decide) (by decide),
   c3_monotone_bounded_discard_in_urlloader.1 sampleDownloading 206
      (List.replicate 100 1)⟩

/-- C4 counterexample: from the reachable DOWNLOADING state right after
discovery of a 300000-byte resource, `close()` does reset the fields, but the
subsequent `load()` does not start a fresh transfer: it throws a TypeError,
because `reset` discarded the XMLHttpRequest and `load` never recreates it. -/
theorem c4_reload_after_close_fails :
    (onHTTPStatus (onStart startedSt).1 200 2 (some 300000)).1.state = 3 ∧
    loadFn (closeFn (onHTTPStatus (onStart startedSt).1 200 2 (some 300000)).1).1 true =
      .error "TypeError" := by
  rw [discovery_eq 300000]
  exact ⟨rfl, rfl⟩

/-- C4 (amended): `close()` during DOWNLOADING resets `bytesLoaded` to 0,
`bytesTotal` to 0, `data` to null and `state` to IDLE; but any `load()` after
that `close()` throws a TypeError instead of starting a fresh transfer (a
fresh transfer needs a new FileLoader instance). -/
theorem c4_close_resets_reload_throws (s : St) (_h3 : s.state = 3) :
    (closeFn s).1.loaded = 0 ∧
    (closeFn s).1.total = some 0 ∧
    (closeFn s).1.data = none ∧
    (closeFn s).1.state = 0 ∧
    (∀ withReq, loadFn (closeFn s).1 withReq = .error "TypeError") := by
  refine ⟨rfl, rfl, rfl, rfl, ?_⟩
  intro withReq
  cases withReq <;> rfl

/-- C4 witness. -/
theorem c4_witness :
    (closeFn sampleDownloading).1.state = 0 ∧
    loadFn (closeFn sampleDownloading).1 true = .error "TypeError" :=
  ⟨(c4_close_resets_reload_throws sampleDownloading rfl).2.2.2.1,
   (c4_close_resets_reload_throws sampleDownloading rfl).2.2.2.2 true⟩

/-- C8: for every resource with a known content length, a chunked run with
any number of interleaved pause/resume cycles assembles, at COMPLETE, a
buffer byte-for-byte identical to the one produced by a single non-chunked
URLLoader fetch of the same resource. -/
theorem c8_refines_whole_fetch (R sched : List Nat) (fuel : Nat)
    (hfuel : R.length < fuel) :
    (fileRunPR R sched fuel).data = urlFetch R ∧
    urlFetch R = some R ∧
    (fileRunPR R sched fuel).state = 4 := by
  have hrun := fileRunPR_complete R sched fuel hfuel
  have hurl : urlFetch R = some R := by
    simp [urlFetch, uSetDataFormat, uReset, urlOnComplete]
  exact ⟨hrun.2.trans hurl.symm, hurl, hrun.1⟩

/-- C8 witness: a tiny resource, two pause/resume cycles before the chunk. -/
theorem c8_witness :
    (fileRunPR [1, 2, 3] [2] 4).data = urlFetch [1, 2, 3] :=
  (c8_refines_whole_fetch [1, 2, 3] [2] 4 (by decide)).1


/-- C6: in DOWNLOADING, `pause()` immediately followed by `resume()` emits
nothing, preserves `bytesLoaded`, `bytesTotal` and the buffer, and re-issues
the chunk request starting exactly at the preserved loaded offset, so that
delivering that chunk extends the assembled buffer to the contiguous prefix
`R.take (loaded + chunkLength)` - no byte downloaded twice, none skipped;
outside state 3 both calls are no-ops. -/
theorem c6_pause_resume_exact (s : St) (R : List Nat)
    (h3 : s.state = 3) (hx : s.xhrInFlight = false) (ha : s.activeDisconnect = false)
    (hp : s.loaderPresent = true)
    (hpend : s.loaderPending = some (s.loaded, s.loaded + 204799))
    (ht : s.total = some R.length)
    (hd : s.data = some (List.take s.loaded R))
    (hle : s.loaded ≤ R.length) (_hbig : 409600 ≤ R.length) :
    (pauseFn s).2 = [] ∧
    (pauseFn s).1.loaded = s.loaded ∧
    (pauseFn s).1.total = s.total ∧
    (pauseFn s).1.data = s.data ∧
    (resumeFn (pauseFn s).1).2 = [] ∧
    (resumeFn (pauseFn s).1).1.loaded = s.loaded ∧
    (resumeFn (pauseFn s).1).1.total = s.total ∧
    (resumeFn (pauseFn s).1).1.data = s.data ∧
    (resumeFn (pauseFn s).1).1.loaderPending = some (s.loaded, s.loaded + 204799) ∧
    (onComplete (resumeFn (pauseFn s).1).1 206
        (serveRange R s.loaded (s.loaded + 204799))).1.data =
      some (List.take (s.loaded + min 204800 (R.length - s.loaded)) R) ∧
    (∀ t : St, t.state ≠ 3 → pauseFn t = (t, []) ∧ resumeFn t = (t, [])) := by
  have hpause : pauseFn s = ({ s with loaderPending := none }, []) := by
    simp [pauseFn, abortFn, onClose, h3, hx, ha, hp, hpend]
  have hres : resumeFn (pauseFn s).1 =
      (slice { s with loaderPending := none }, []) := by
    rw [hpause]
    simp [resumeFn, h3]
  refine ⟨by rw [hpause], by rw [hpause], by rw [hpause], by rw [hpause],
    by rw [hres], by rw [hres]; rfl, by rw [hres]; rfl, ?_, by rw [hres]; rfl, ?_,
    fun t h => ⟨by simp [pauseFn, h], by simp [resumeFn, h]⟩⟩
  · rw [hres]
    simp [slice, hd]
  · have hserve := onComplete_serve R (slice { s with loaderPending := none })
      rfl (by simpa [slice] using ht) (Or.inl (by simp [slice, hd]))
      (by simpa [slice] using hle)
    dsimp only [slice] at hserve
    rw [hres]
    dsimp only [slice]
    rw [hserve]
    by_cases hcase : s.loaded + min 204800 (R.length - s.loaded) < R.length
    · rw [if_pos hcase]
    · rw [if_neg hcase]
      have heq : s.loaded + 204800 ⊓ (R.length - s.loaded) = R.length := by omega
      rw [heq, List.take_length]

/-- C6 witness at the sample mid-transfer state. -/
theorem c6_witness :
    (pauseFn sampleDownloading).2 = [] ∧
    (resumeFn (pauseFn sampleDownloading).1).1.loaded = 204800 ∧
    (resumeFn (pauseFn sampleDownloading).1).1.loaderPending =
      some (204800, 409599) := by
  have hlen : sampleR.length = 500000 := by
    unfold sampleR
    exact List.length_replicate 500000 7
  have h := c6_pause_resume_exact sampleDownloading sampleR rfl rfl rfl rfl
    (by norm_num [sampleDownloading])
    (by simp [sampleDownloading, hlen])
    rfl
    (by rw [hlen]; decide)
    (by rw [hlen]; decide)
  refine ⟨h.1, ?_, ?_⟩
  · rw [h.2.2.2.2.2.1]
    rfl
  · rw [h.2.2.2.2.2.2.2.2.1]
    norm_num [sampleDownloading]

end JsNet
